import Mathlib

/-!
# BotZakazov (src/Main.py) — shallow embedding and verification

A shallow embedding of the order-bot's pure core: the catalog loader
(`ProductRepository.get_all_products`), the SQLite-backed cart operations
(`DatabaseManager.add_to_cart` / `get_cart_items` / `clear_cart`), the
Excel order ledger (`ExcelExporter.add_order` / `get_user_orders`) and the
conversation handlers (`add_to_cart_handler`, `checkout`,
`show_user_orders`, `handle_callback`).

Conventions of the embedding:
* The catalog text file is a list of its physical lines (`List String`).
* SQLite tables are lists of rows in rowid (insertion) order; `fetchone`
  on an unordered `SELECT` is `List.find?`, an `UPDATE ... WHERE` maps
  over every matching row, `DELETE ... WHERE` is a filter.
* The Excel workbook is the list of its data rows (header row omitted,
  matching `iter_rows(min_row=2)`).
* I/O failure (the `except` branches around file access) is modelled by
  an explicit `ioFail : Bool` parameter: when true, the operation raises
  and the corresponding `except` handler's result is returned.
* Python `float` prices are modelled as `Rat`; `float(s)` is modelled on
  plain decimal literals (optional sign, digits, at most one dot), the
  only shapes the program's catalog format involves.
-/

namespace BotZakazov

/-- Split a character list at every occurrence of `c`, Python
`str.split(sep)` style: `"a|b" ↦ ["a","b"]`, `"" ↦ [""]`, `"|" ↦ ["",""]`. -/
def splitOnChar (c : Char) : List Char → List (List Char)
  | [] => [[]]
  | x :: xs =>
    if x = c then [] :: splitOnChar c xs
    else
      match splitOnChar c xs with
      | [] => [[x]]
      | h :: t => (x :: h) :: t

/-- Python `str.split(sep)` lifted to `String`. -/
def pySplit (c : Char) (s : String) : List String :=
  (splitOnChar c s.data).map (fun l => ⟨l⟩)

/-- Python `str.strip()`: drop whitespace from both ends. -/
def pyStrip (s : String) : String :=
  ⟨((s.data.dropWhile Char.isWhitespace).reverse.dropWhile Char.isWhitespace).reverse⟩

/-- Model of `sep.join(parts)` with separator `'|'`, used to model `split('|', 2)`
keeping the tail intact. -/
def joinBar (parts : List String) : String :=
  ⟨List.intercalate ['|'] (parts.map String.data)⟩

/-- Numeric value of a list of decimal digit characters. -/
def digitsVal (cs : List Char) : Nat :=
  cs.foldl (fun a c => a * 10 + (c.toNat - 48)) 0

/-- Model of `float(s)` on a plain decimal literal: optional sign, then digits with
at most one dot and at least one digit.  Models the successful/failing
behaviour of Python's `float` on the catalog's price field. -/
def parseFloat (s : String) : Option Rat :=
  let withSign := s.data
  let (neg, body) :=
    match withSign with
    | '-' :: rest => (true, rest)
    | '+' :: rest => (false, rest)
    | rest => (false, rest)
  let intPart := body.takeWhile (fun c => c ≠ '.')
  let rest := body.dropWhile (fun c => c ≠ '.')
  let fracPart := rest.drop 1
  if body = [] then none
  else if ¬ intPart.all Char.isDigit then none
  else if rest = [] then
    -- no dot at all
    some (if neg then -(digitsVal intPart : Rat) else (digitsVal intPart : Rat))
  else if ¬ fracPart.all Char.isDigit then none
  else if intPart = [] ∧ fracPart = [] then none
  else
    let v : Rat := mkRat (digitsVal intPart * 10 ^ fracPart.length + digitsVal fracPart)
                         (10 ^ fracPart.length)
    some (if neg then -v else v)

/-- The `Product` dataclass (src/Main.py:23). -/
structure Product where
  id : Nat
  name : String
  price : Rat
  description : String
  deriving DecidableEq, Repr

/-- Model of `line.split('|', 2)`: Python split with maxsplit 2 — at most three
parts, the third keeping any further delimiters. -/
def splitBar2 (l : String) : List String :=
  let parts := pySplit '|' l
  if parts.length ≥ 3 then
    [parts.headD "", (parts.drop 1).headD "", joinBar (parts.drop 2)]
  else parts

/-- One iteration body of `get_all_products` after the `line and '|' in line`
guard: `name, price, description = line.split('|', 2)` followed by
`float(price.strip())`.  `none` means the statement raises
(`ValueError` from unpacking or from `float`). -/
def parse_line (l : String) : Option (String × Rat × String) :=
  match splitBar2 l with
  | [n, p, d] =>
    match parseFloat (pyStrip p) with
    | some pr => some (pyStrip n, pr, pyStrip d)
    | none => none
  | _ => none

/-- A line passes the `if line and '|' in line` guard (after
`line = line.strip()`). -/
def lineGuard (l : String) : Bool :=
  pyStrip l ≠ "" && (pyStrip l).data.contains '|'

/-- The loop of `ProductRepository.get_all_products` (src/Main.py:49-65),
carrying the 1-based `enumerate` index.  A line failing the guard is
skipped; a guarded line that raises while parsing aborts the loop (the
`except` around the whole loop returns the products accumulated so far). -/
def load_lines : List String → Nat → List Product
  | [], _ => []
  | line :: rest, idx =>
    if lineGuard line then
      match parse_line (pyStrip line) with
      | some (n, p, d) => ⟨idx, n, p, d⟩ :: load_lines rest (idx + 1)
      | none => []
    else load_lines rest (idx + 1)

/-- Function `ProductRepository.get_all_products` over the store's lines. -/
def get_all_products (lines : List String) : List Product :=
  load_lines lines 1

/-- Function `ProductRepository.get_product_by_id` (src/Main.py:67-69).  The id the
callers pass comes from `int(...)`, hence `Int`. -/
def get_product_by_id (lines : List String) (product_id : Int) : Option Product :=
  (get_all_products lines).find? (fun p => (p.id : Int) = product_id)

/-- One row of the `cart_items` table (rowid order = list order). -/
structure CartRow where
  userId : Nat
  productId : Int
  quantity : Int
  deriving DecidableEq, Repr

/-- A tuple produced by `DatabaseManager.get_cart_items`:
`(product.id, product.name, product.price, quantity)`. -/
structure CartEntry where
  productId : Nat
  name : String
  price : Rat
  quantity : Int
  deriving DecidableEq, Repr

/-- Function `DatabaseManager.add_to_cart` (src/Main.py:114-132): `fetchone` the
first row for `(user_id, product_id)`; if present, `UPDATE` every
matching row to `existing + quantity`, else `INSERT` a fresh row. -/
def add_to_cart (cart : List CartRow) (user_id : Nat) (product_id : Int) (quantity : Int) :
    List CartRow :=
  match (cart.filter (fun r => r.userId = user_id ∧ r.productId = product_id)).head? with
  | some existing =>
    cart.map (fun r =>
      if r.userId = user_id ∧ r.productId = product_id then
        { r with quantity := existing.quantity + quantity }
      else r)
  | none => cart ++ [⟨user_id, product_id, quantity⟩]

/-- Function `DatabaseManager.get_cart_items` (src/Main.py:134-150): select this
user's rows, join each against the live catalog by product id, silently
dropping rows whose product no longer resolves. -/
def get_cart_items (cart : List CartRow) (lines : List String) (user_id : Nat) :
    List CartEntry :=
  (cart.filter (fun r => r.userId = user_id)).filterMap fun r =>
    match (get_all_products lines).find? (fun p => (p.id : Int) = r.productId) with
    | some p => some ⟨p.id, p.name, p.price, r.quantity⟩
    | none => none

/-- Function `DatabaseManager.clear_cart` (src/Main.py:152-154). -/
def clear_cart (cart : List CartRow) (user_id : Nat) : List CartRow :=
  cart.filter (fun r => r.userId ≠ user_id)

/-- Function `DatabaseManager.get_user` (src/Main.py:106-112): the `users` table
keyed by primary key `user_id`, returning `(first_name, last_name)`. -/
def get_user (users : List (Nat × String × String)) (user_id : Nat) :
    Option (String × String) :=
  (users.find? (fun r => r.1 = user_id)).map (fun r => r.2)

/-- One data row of the `orders.xlsx` sheet as `add_order` writes it:
`[date, full_name, name_1, qty_1, name_2, qty_2, ...]`. -/
structure OrderRow where
  date : String
  fullName : String
  pairs : List (String × Int)
  deriving DecidableEq, Repr

/-- Function `ExcelExporter.add_order` (src/Main.py:172-192).  Builds
`row_data = [now, full_name]` extended with `[name, quantity]` for EVERY
cart item — there is no capacity check — appends the row and saves.  On
an I/O exception the `except` branch returns `False` with the workbook
on disk unchanged. -/
def add_order (ioFail : Bool) (ledger : List OrderRow) (full_name : String)
    (cart_items : List CartEntry) (now : String) : Bool × List OrderRow :=
  if ioFail then (false, ledger)
  else (true, ledger ++ [⟨now, full_name, cart_items.map (fun c => (c.name, c.quantity))⟩])

/-- One order as `ExcelExporter.get_user_orders` returns it:
`{'date': ..., 'items': [{'product':..., 'quantity':...}, ...]}`. -/
structure OrderInfo where
  date : String
  items : List (String × Int)
  deriving DecidableEq, Repr

/-- Function `ExcelExporter.get_user_orders` (src/Main.py:194-225): rows whose
name cell is truthy and equals `full_name`; item pairs kept only when
both cells are truthy (name nonempty, quantity nonzero).  Any exception
is caught and yields `[]`. -/
def get_user_orders (ioFail : Bool) (ledger : List OrderRow) (full_name : String) :
    List OrderInfo :=
  if ioFail then []
  else
    (ledger.filter (fun r => r.fullName ≠ "" ∧ r.fullName = full_name)).map fun r =>
      ⟨r.date, r.pairs.filter (fun p => p.1 ≠ "" ∧ p.2 ≠ 0)⟩

/-- Python `int(s)` on the callback-token fragments: optional sign then
decimal digits; anything else raises (`none`). -/
def parseInt (s : String) : Option Int :=
  match s.data with
  | '-' :: rest =>
    if rest ≠ [] ∧ rest.all Char.isDigit then some (-(digitsVal rest : Int)) else none
  | '+' :: rest =>
    if rest ≠ [] ∧ rest.all Char.isDigit then some ((digitsVal rest : Int)) else none
  | l => if l ≠ [] ∧ l.all Char.isDigit then some ((digitsVal l : Int)) else none

/-- The per-conversation `context.user_data` fields the handlers touch. -/
structure Scratch where
  selected_product : Option Int := none
  orders_page : Option Nat := none
  deriving DecidableEq, Repr

/-- The views (`edit_message_text` outcomes) the embedded handlers emit. -/
inductive View where
  | userNotFound
  | productNotSelected
  | productNotFound
  | addedToCart (name : String) (quantity : Int)
  | cartEmptyError
  | orderConfirmed (total : Rat)
  | orderFailed
  | emptyOrderHistory
  | ordersPage (page total_pages : Nat) (shown : List OrderInfo)
  deriving DecidableEq, Repr

/-- Handler `add_to_cart_handler` (src/Main.py:382-407): reads the quantity from
the `qty_<n>` token (already parsed here) and `selected_product` from the
session scratch; `if not product_id` (absent or the falsy `0`) renders
the error view and returns without touching the cart. -/
def add_to_cart_handler (lines : List String) (s : Scratch) (cart : List CartRow)
    (user_id : Nat) (quantity : Int) : View × List CartRow :=
  match s.selected_product with
  | none => (View.productNotSelected, cart)
  | some pid =>
    if pid = 0 then (View.productNotSelected, cart)
    else
      match get_product_by_id lines pid with
      | none => (View.productNotFound, cart)
      | some p => (View.addedToCart p.name quantity, add_to_cart cart user_id pid quantity)

/-- Handler `checkout` (src/Main.py:511-560): guard on registered user and
non-empty cart snapshot, then `exporter.add_order`; only on success is
`db.clear_cart(user_id)` executed. -/
def checkout (ioFail : Bool) (users : List (Nat × String × String)) (cart : List CartRow)
    (ledger : List OrderRow) (lines : List String) (user_id : Nat) (now : String) :
    View × List CartRow × List OrderRow :=
  match get_user users user_id with
  | none => (View.userNotFound, cart, ledger)
  | some (first_name, last_name) =>
    let full_name := first_name ++ " " ++ last_name
    let cart_items := get_cart_items cart lines user_id
    if cart_items = [] then (View.cartEmptyError, cart, ledger)
    else
      let res := add_order ioFail ledger full_name cart_items now
      if res.1 then
        (View.orderConfirmed
          (cart_items.foldl (fun t c => t + c.price * (c.quantity : Rat)) 0),
         clear_cart cart user_id, res.2)
      else (View.orderFailed, cart, res.2)

/-- Handler `show_user_orders` (src/Main.py:441-509).  Note the source's
`total_pages = (len(orders) + orders_per_page - 1)` is followed by a bare
`orders_per_page` expression statement on its own line — no division
happens, so `total_pages` is `len(orders) + 2`.  The page index comes
from `user_data.get('orders_page', 0)` unclamped; the slice
`orders[start_idx:end_idx]` is drop/take. -/
def show_user_orders (ioFail : Bool) (ledger : List OrderRow) (orders_page : Option Nat)
    (first_name last_name : String) : View :=
  let orders := get_user_orders ioFail ledger (first_name ++ " " ++ last_name)
  if orders = [] then View.emptyOrderHistory
  else
    let page := orders_page.getD 0
    let orders_per_page := 3
    let total_pages := orders.length + orders_per_page - 1
    let start_idx := page * orders_per_page
    let current_orders := (orders.drop start_idx).take orders_per_page
    View.ordersPage page total_pages current_orders

/-- Session-scratch effect of `show_product_details` (src/Main.py:347-356):
`int(query.data.split('_')[1])` (a failure raises and changes nothing),
then `selected_product` is stored only when the product resolves. -/
def show_product_details_scratch (lines : List String) (token : String) (s : Scratch) :
    Scratch :=
  match parseInt ((pySplit '_' token).getD 1 "") with
  | none => s
  | some pid =>
    match get_product_by_id lines pid with
    | none => s
    | some _ => { s with selected_product := some pid }

/-- Session-scratch effect of the dispatcher `handle_callback`
(src/Main.py:289-315): of all its branches only `product_<id>`
(`show_product_details`) writes to `user_data`; no branch exists for
`orders_page_<n>` tokens, which fall through the `elif` chain unhandled. -/
def handle_callback_scratch (users : List (Nat × String × String)) (lines : List String)
    (user_id : Nat) (token : String) (s : Scratch) : Scratch :=
  match get_user users user_id with
  | none => s
  | some _ =>
    if token = "catalog" then s
    else if token = "cart" then s
    else if token = "orders" then s
    else if token = "back_to_menu" then s
    else if token.startsWith "product_" then show_product_details_scratch lines token s
    else if token.startsWith "qty_" then s
    else if token = "checkout" then s
    else if token = "clear_cart" then s
    else s

/-- A catalog line that survives both the guard and the parse — it yields
a `Product` and the loop continues. -/
def validLine (l : String) : Bool :=
  lineGuard l && (parse_line (pyStrip l)).isSome

/-- Fold a sequence of callback tokens through the dispatcher's
session-scratch effect, starting from a given scratch. -/
def run_callbacks (users : List (Nat × String × String)) (lines : List String)
    (u : Nat) (tokens : List String) (s : Scratch) : Scratch :=
  tokens.foldl (fun st t => handle_callback_scratch users lines u t st) s

/-- The page index a rendered view displays (0 for non-paginated views). -/
def ordersPageIdx : View → Nat
  | View.ordersPage page _ _ => page
  | _ => 0

/-! ## Cart lemmas -/

lemma add_to_cart_of_not_mem (cart : List CartRow) (u : Nat) (p q : Int)
    (h : ∀ r ∈ cart, ¬(r.userId = u ∧ r.productId = p)) :
    add_to_cart cart u p q = cart ++ [⟨u, p, q⟩] := by
  unfold add_to_cart
  have hf : cart.filter (fun r => decide (r.userId = u ∧ r.productId = p)) = [] := by
    rw [List.filter_eq_nil_iff]
    intro r hr
    simpa using h r hr
  rw [hf]
  rfl

lemma add_to_cart_again (cart : List CartRow) (u : Nat) (p q1 q2 : Int)
    (h : ∀ r ∈ cart, ¬(r.userId = u ∧ r.productId = p)) :
    add_to_cart (cart ++ [⟨u, p, q1⟩]) u p q2 = cart ++ [⟨u, p, q1 + q2⟩] := by
  unfold add_to_cart
  have hnil : cart.filter (fun r => decide (r.userId = u ∧ r.productId = p)) = [] := by
    rw [List.filter_eq_nil_iff]
    intro r hr
    simpa using h r hr
  have hf : (cart ++ [(⟨u, p, q1⟩ : CartRow)]).filter
      (fun r => decide (r.userId = u ∧ r.productId = p)) = [⟨u, p, q1⟩] := by
    rw [List.filter_append, hnil]
    simp
  rw [hf]
  simp only [List.head?, List.map_append]
  congr 1
  · calc cart.map (fun r => if r.userId = u ∧ r.productId = p then
          { r with quantity := q1 + q2 } else r)
        = cart.map id := List.map_congr_left (fun r hr => if_neg (h r hr))
      _ = cart := List.map_id cart
  · simp

lemma mem_get_cart_items {cart : List CartRow} {lines : List String} {u : Nat}
    {e : CartEntry} (he : e ∈ get_cart_items cart lines u) :
    ∃ r ∈ cart, r.userId = u ∧ (e.productId : Int) = r.productId := by
  unfold get_cart_items at he
  obtain ⟨r, hr, hres⟩ := List.mem_filterMap.mp he
  obtain ⟨hrc, hru⟩ := List.mem_filter.mp hr
  refine ⟨r, hrc, by simpa using hru, ?_⟩
  cases hfind : (get_all_products lines).find? (fun pr => (pr.id : Int) = r.productId) with
  | none => rw [hfind] at hres; cases hres
  | some pr =>
    rw [hfind] at hres
    have hid := List.find?_some hfind
    cases hres
    simpa using hid

lemma filter_get_cart_items_eq_nil (cart : List CartRow) (lines : List String)
    (u : Nat) (p : Int) (h : ∀ r ∈ cart, ¬(r.userId = u ∧ r.productId = p)) :
    (get_cart_items cart lines u).filter (fun e => decide ((e.productId : Int) = p)) = [] := by
  rw [List.filter_eq_nil_iff]
  intro e he
  obtain ⟨r, hrc, hru, hpid⟩ := mem_get_cart_items he
  intro hcontra
  exact h r hrc ⟨hru, by rw [← hpid]; simpa using hcontra⟩

lemma get_cart_items_clear (cart : List CartRow) (lines : List String) (u : Nat) :
    get_cart_items (clear_cart cart u) lines u = [] := by
  unfold get_cart_items
  have hnil : (clear_cart cart u).filter (fun r => decide (r.userId = u)) = [] := by
    rw [List.filter_eq_nil_iff]
    intro r hr
    unfold clear_cart at hr
    have := (List.mem_filter.mp hr).2
    simp_all
  rw [hnil]
  rfl

/-! ## C6 -/

/-- C6: for a product `p` resolvable in the catalog and a cart holding no
row for `(u, p)`, `addItem(u,p,q1)` then `addItem(u,p,q2)` leaves
`listItems(u)` with exactly one row for `p`, carrying quantity
`q1 + q2`. -/
theorem C6_addItem_merges (cart : List CartRow) (lines : List String) (u : Nat)
    (p q1 q2 : Int) (prod : Product)
    (hfind : (get_all_products lines).find? (fun pr => (pr.id : Int) = p) = some prod)
    (hno : ∀ r ∈ cart, ¬(r.userId = u ∧ r.productId = p))
    (_hq1 : 0 < q1) (_hq2 : 0 < q2) :
    (get_cart_items (add_to_cart (add_to_cart cart u p q1) u p q2) lines u).filter
        (fun e => (e.productId : Int) = p)
      = [⟨prod.id, prod.name, prod.price, q1 + q2⟩] := by
  rw [add_to_cart_of_not_mem cart u p q1 hno, add_to_cart_again cart u p q1 q2 hno]
  have hid : (prod.id : Int) = p := by simpa using List.find?_some hfind
  have happ : get_cart_items (cart ++ [⟨u, p, q1 + q2⟩]) lines u
      = get_cart_items cart lines u ++ [⟨prod.id, prod.name, prod.price, q1 + q2⟩] := by
    unfold get_cart_items
    rw [List.filter_append, List.filterMap_append]
    congr 1
    simp [hfind]
  rw [happ, List.filter_append, filter_get_cart_items_eq_nil cart lines u p hno]
  simp [hid]

/-- C6 witness: two adds of product 1 (quantities 2 then 3) by user 7
into an empty cart leave exactly one row with quantity 5. -/
theorem C6_addItem_merges_witness :
    (get_cart_items (add_to_cart (add_to_cart [] 7 1 2) 7 1 3) ["A|1|d"] 7).filter
        (fun e => (e.productId : Int) = 1)
      = [⟨1, "A", 1, 2 + 3⟩] :=
  C6_addItem_merges [] ["A|1|d"] 7 1 2 3 ⟨1, "A", 1, "d"⟩ (by decide)
    (by simp) (by decide) (by decide)

/-! ## C7 -/

/-- C7 counterexample: a `qty_0` callback with product 1 selected, the
product resolvable and the cart empty.  The code renders the SUCCESS
view and inserts a row with quantity `0` — no `InvalidQuantity`
rejection exists and the cart store is mutated, refuting both the
`quantity ≥ 1` invariant and the no-mutation requirement. -/
theorem C7_zero_quantity_counterexample :
    add_to_cart_handler ["A|1|d"] ⟨some 1, none⟩ [] 7 0
      = (View.addedToCart "A" 0, [⟨7, 1, 0⟩]) ∧
    (add_to_cart_handler ["A|1|d"] ⟨some 1, none⟩ [] 7 0).2 ≠ [] := by
  decide

/-- C7 (amended): `add_to_cart` performs no quantity validation — a
request with zero or negative quantity is accepted and mutates the cart
store exactly as a positive one would, inserting a row carrying that
non-positive quantity. -/
theorem C7_no_quantity_validation (cart : List CartRow) (u : Nat) (p q : Int)
    (_hq : q ≤ 0) (hno : ∀ r ∈ cart, ¬(r.userId = u ∧ r.productId = p)) :
    add_to_cart cart u p q = cart ++ [⟨u, p, q⟩] ∧ add_to_cart cart u p q ≠ cart := by
  have h1 := add_to_cart_of_not_mem cart u p q hno
  refine ⟨h1, ?_⟩
  rw [h1]
  intro hcontra
  have hlen := congrArg List.length hcontra
  simp at hlen

/-- C7 witness: a quantity-0 add into an empty cart inserts a row. -/
theorem C7_no_quantity_validation_witness :
    add_to_cart [] 1 2 0 = [] ++ [⟨1, 2, 0⟩] ∧ add_to_cart [] 1 2 0 ≠ [] :=
  C7_no_quantity_validation [] 1 2 0 (by decide) (by simp)

/-! ## C8 -/

/-- C8: a quantity selection handled while `selected_product` is absent
from the session scratch renders the error view and leaves the cart
store untouched. -/
theorem C8_stale_quantity_no_mutation (lines : List String) (s : Scratch)
    (cart : List CartRow) (u : Nat) (q : Int)
    (h : s.selected_product = none) :
    add_to_cart_handler lines s cart u q = (View.productNotSelected, cart) := by
  unfold add_to_cart_handler
  rw [h]

/-- C8 witness: `qty_5` in a fresh session with a non-empty cart — error
view, cart unchanged. -/
theorem C8_stale_quantity_no_mutation_witness :
    add_to_cart_handler ["A|1|d"] ⟨none, none⟩ [⟨7, 1, 2⟩] 7 5
      = (View.productNotSelected, [⟨7, 1, 2⟩]) :=
  C8_stale_quantity_no_mutation ["A|1|d"] ⟨none, none⟩ [⟨7, 1, 2⟩] 7 5 rfl

/-! ## C5 -/

/-- C5: for a registered user with a non-empty cart, `checkout` clears
the cart iff the ledger append succeeds (`ioFail = false`): on success
the post-state's `listItems(u)` is empty, on failure it is exactly the
pre-state's. -/
theorem C5_checkout_clears_iff_append_succeeds (ioFail : Bool)
    (users : List (Nat × String × String)) (cart : List CartRow)
    (ledger : List OrderRow) (lines : List String) (u : Nat) (now : String)
    (fn ln : String)
    (hu : get_user users u = some (fn, ln))
    (hne : get_cart_items cart lines u ≠ []) :
    (¬ ioFail →
      get_cart_items (checkout ioFail users cart ledger lines u now).2.1 lines u = []) ∧
    (ioFail →
      get_cart_items (checkout ioFail users cart ledger lines u now).2.1 lines u
        = get_cart_items cart lines u) := by
  unfold checkout
  rw [hu]
  cases ioFail with
  | false =>
    refine ⟨fun _ => ?_, fun hcontra => absurd hcontra (by simp)⟩
    simp only [add_order, if_neg hne]
    simp [get_cart_items_clear]
  | true =>
    refine ⟨fun hcontra => absurd rfl hcontra, fun _ => ?_⟩
    simp only [add_order, if_neg hne]
    simp

/-- C5 witness: user 7 ("Ann Lee") with one cart row; a successful and a
failing checkout respectively empty and preserve `listItems`. -/
theorem C5_checkout_witness :
    ((¬ false →
      get_cart_items (checkout false [(7, "Ann", "Lee")] [⟨7, 1, 2⟩] [] ["A|1|d"] 7
        "t").2.1 ["A|1|d"] 7 = []) ∧
    (false →
      get_cart_items (checkout false [(7, "Ann", "Lee")] [⟨7, 1, 2⟩] [] ["A|1|d"] 7
        "t").2.1 ["A|1|d"] 7 = get_cart_items [⟨7, 1, 2⟩] ["A|1|d"] 7)) ∧
    ((¬ true →
      get_cart_items (checkout true [(7, "Ann", "Lee")] [⟨7, 1, 2⟩] [] ["A|1|d"] 7
        "t").2.1 ["A|1|d"] 7 = []) ∧
    (true →
      get_cart_items (checkout true [(7, "Ann", "Lee")] [⟨7, 1, 2⟩] [] ["A|1|d"] 7
        "t").2.1 ["A|1|d"] 7 = get_cart_items [⟨7, 1, 2⟩] ["A|1|d"] 7)) :=
  ⟨C5_checkout_clears_iff_append_succeeds false [(7, "Ann", "Lee")] [⟨7, 1, 2⟩] []
      ["A|1|d"] 7 "t" "Ann" "Lee" (by decide) (by decide),
   C5_checkout_clears_iff_append_succeeds true [(7, "Ann", "Lee")] [⟨7, 1, 2⟩] []
      ["A|1|d"] 7 "t" "Ann" "Lee" (by decide) (by decide)⟩

/-! ## C1 -/

/-- C1 counterexample: `add_order` with FIVE line items returns `True`
(no `CapacityExceeded`), writes the whole record, and the result of
`get_user_orders` for that customer differs before/after — refuting both
the must-fail and the ledger-unchanged parts of the claim. -/
theorem C1_five_items_counterexample :
    (add_order false [] "Ann Lee"
        [⟨1, "A", 1, 1⟩, ⟨2, "B", 1, 1⟩, ⟨3, "C", 1, 1⟩, ⟨4, "D", 1, 1⟩, ⟨5, "E", 1, 1⟩]
        "t").1 = true ∧
    get_user_orders false
        (add_order false [] "Ann Lee"
          [⟨1, "A", 1, 1⟩, ⟨2, "B", 1, 1⟩, ⟨3, "C", 1, 1⟩, ⟨4, "D", 1, 1⟩, ⟨5, "E", 1, 1⟩]
          "t").2 "Ann Lee"
      ≠ get_user_orders false [] "Ann Lee" := by
  decide

/-- C1 (amended): `add_order` performs no capacity check — absent I/O
failure, an append of more than 4 line items succeeds, writing a single
row holding every `(name, quantity)` pair, and `findByCustomer` for that
customer subsequently returns one more order than before. -/
theorem C1_no_capacity_check (ledger : List OrderRow) (items : List CartEntry)
    (fn now : String) (_h4 : 4 < items.length) (hfn : fn ≠ "") :
    (add_order false ledger fn items now).1 = true ∧
    (add_order false ledger fn items now).2
      = ledger ++ [⟨now, fn, items.map (fun c => (c.name, c.quantity))⟩] ∧
    (get_user_orders false (add_order false ledger fn items now).2 fn).length
      = (get_user_orders false ledger fn).length + 1 := by
  refine ⟨rfl, rfl, ?_⟩
  unfold add_order get_user_orders
  simp [List.filter_append, hfn]

/-- C1 witness: five one-unit items appended for "Ann Lee" over an empty
ledger. -/
theorem C1_no_capacity_check_witness :
    (add_order false [] "Ann Lee"
        [⟨1, "A", 1, 1⟩, ⟨2, "B", 2, 1⟩, ⟨3, "C", 3, 1⟩, ⟨4, "D", 4, 1⟩, ⟨5, "E", 5, 1⟩]
        "t").1 = true ∧
    (add_order false [] "Ann Lee"
        [⟨1, "A", 1, 1⟩, ⟨2, "B", 2, 1⟩, ⟨3, "C", 3, 1⟩, ⟨4, "D", 4, 1⟩, ⟨5, "E", 5, 1⟩]
        "t").2
      = [] ++ [⟨"t", "Ann Lee",
          ([⟨1, "A", 1, 1⟩, ⟨2, "B", 2, 1⟩, ⟨3, "C", 3, 1⟩, ⟨4, "D", 4, 1⟩,
            ⟨5, "E", 5, 1⟩] : List CartEntry).map (fun c => (c.name, c.quantity))⟩] ∧
    (get_user_orders false
        (add_order false [] "Ann Lee"
          [⟨1, "A", 1, 1⟩, ⟨2, "B", 2, 1⟩, ⟨3, "C", 3, 1⟩, ⟨4, "D", 4, 1⟩, ⟨5, "E", 5, 1⟩]
          "t").2 "Ann Lee").length
      = (get_user_orders false [] "Ann Lee").length + 1 :=
  C1_no_capacity_check []
    [⟨1, "A", 1, 1⟩, ⟨2, "B", 2, 1⟩, ⟨3, "C", 3, 1⟩, ⟨4, "D", 4, 1⟩, ⟨5, "E", 5, 1⟩]
    "Ann Lee" "t" (by decide) (by decide)

/-! ## C3 -/

lemma load_lines_ids_all_valid (lines : List String) :
    ∀ idx : Nat, (∀ l ∈ lines, validLine l = true) →
      (load_lines lines idx).map Product.id = List.range' idx lines.length := by
  induction lines with
  | nil => intro idx _; rfl
  | cons l rest ih =>
    intro idx h
    have hl := h l (List.mem_cons_self l rest)
    rw [validLine, Bool.and_eq_true] at hl
    obtain ⟨hg, hp⟩ := hl
    obtain ⟨⟨n, pr, d⟩, htrip⟩ := Option.isSome_iff_exists.mp hp
    unfold load_lines
    rw [if_pos hg, htrip]
    simp only [List.map_cons, List.length_cons, List.range'_succ]
    rw [ih (idx + 1) (fun x hx => h x (List.mem_cons_of_mem l hx))]

/-- C3 counterexample: a catalog store whose second physical line is
blank loads two products with ids `[1, 3]` — the ids are physical line
ordinals, not ordinals among valid lines, so the id set of this 2-product
catalog is not `{1, 2}` and is not dense. -/
theorem C3_ids_not_dense_counterexample :
    (get_all_products ["A|1|d", "", "B|2|d"]).map Product.id = [1, 3] ∧
    (get_all_products ["A|1|d", "", "B|2|d"]).map Product.id
      ≠ List.range' 1 (get_all_products ["A|1|d", "", "B|2|d"]).length := by
  decide

/-- C3 (amended): a loaded Product's id is its 1-based PHYSICAL line
ordinal in the store (blank and malformed lines count too); consequently
the ids are dense — exactly `1..k` — precisely in stores where every
line is valid, not regardless of interleaved blank/malformed lines. -/
theorem C3_ids_are_line_ordinals (lines : List String)
    (h : ∀ l ∈ lines, validLine l = true) :
    (get_all_products lines).map Product.id = List.range' 1 lines.length :=
  load_lines_ids_all_valid lines 1 h

/-- C3 witness: a two-line, all-valid store loads ids `[1, 2]`. -/
theorem C3_ids_are_line_ordinals_witness :
    (get_all_products ["A|1|d", "B|2|d"]).map Product.id
      = List.range' 1 (["A|1|d", "B|2|d"] : List String).length :=
  C3_ids_are_line_ordinals ["A|1|d", "B|2|d"] (by decide)

/-! ## C4 -/

/-- C4 counterexample: the store `["A|1|d", "B|x|d", "C|2|d"]` has a
malformed middle line (non-numeric price).  The whole load is truncated
there: only "A" is returned and the perfectly valid later line "C|2|d"
yields no Product, refuting per-line skipping. -/
theorem C4_malformed_truncates_counterexample :
    (get_all_products ["A|1|d", "B|x|d", "C|2|d"]).map Product.name = ["A"] ∧
    "C" ∉ (get_all_products ["A|1|d", "B|x|d", "C|2|d"]).map Product.name := by
  decide

/-- C4 (amended): only lines that are blank or lack the `|` delimiter
are silently skipped with the load continuing; a line that carries the
delimiter but fails to parse (non-numeric price, or a single field
before the price) raises inside the loop and the surrounding handler
aborts the load, dropping every later line. -/
theorem C4_skip_vs_abort (l : String) (rest : List String) (idx : Nat) :
    (lineGuard l = false → load_lines (l :: rest) idx = load_lines rest (idx + 1)) ∧
    (lineGuard l = true → parse_line (pyStrip l) = none →
      load_lines (l :: rest) idx = []) := by
  constructor
  · intro hg
    conv_lhs => rw [load_lines]
    rw [if_neg (by simp [hg])]
  · intro hg hp
    unfold load_lines
    rw [if_pos hg, hp]

/-- C4 witness: a blank line is skipped (the next line still loads); a
bad-price line aborts (the next line is lost). -/
theorem C4_skip_vs_abort_witness :
    load_lines ["", "C|2|d"] 1 = load_lines ["C|2|d"] (1 + 1) ∧
    load_lines ["B|x|d", "C|2|d"] 1 = [] :=
  ⟨(C4_skip_vs_abort "" ["C|2|d"] 1).1 (by decide),
   (C4_skip_vs_abort "B|x|d" ["C|2|d"] 1).2 (by decide) (by decide)⟩

/-! ## C2 -/

/-- C2 (evaluation at the failing input): with exactly ONE order in the
ledger the orders view renders `total_pages = 3` — the source computes
`len(orders) + orders_per_page - 1` and the intended `// orders_per_page`
sits on the next line as a bare no-op expression — whereas
`ceil(1/3) = (1 + 3 - 1) / 3 = 1`. -/
theorem C2_total_pages_bug :
    show_user_orders false [⟨"t", "Ann Lee", [("A", 1)]⟩] none "Ann" "Lee"
      = View.ordersPage 0 3 [⟨"t", [("A", 1)]⟩] ∧
    3 ≠ (1 + 3 - 1) / 3 := by
  decide

/-! ## C9 -/

/-- C9 counterexample: with one ledger record for "Ann Lee" but a failing
ledger read, the orders handler renders the ordinary empty-order-history
view — the very view a genuinely empty history gets — rather than any
view conveying the failure. -/
theorem C9_read_failure_counterexample :
    show_user_orders true [⟨"t", "Ann Lee", [("A", 1)]⟩] none "Ann" "Lee"
      = View.emptyOrderHistory ∧
    show_user_orders true [⟨"t", "Ann Lee", [("A", 1)]⟩] none "Ann" "Lee"
      = show_user_orders false [] none "Ann" "Lee" := by
  decide

/-- C9 (amended): a ledger read failure is swallowed — `get_user_orders`
catches the exception and returns `[]`, so the orders handler always
renders the ordinary empty-order-history view, indistinguishable from a
genuinely empty history; no view conveying the failure is emitted. -/
theorem C9_read_failure_swallowed (ledger : List OrderRow) (page : Option Nat)
    (fn ln : String) :
    show_user_orders true ledger page fn ln = View.emptyOrderHistory ∧
    show_user_orders true ledger page fn ln = show_user_orders false [] page fn ln := by
  unfold show_user_orders get_user_orders
  simp

/-! ## C10 -/

lemma handle_callback_scratch_orders_page (users : List (Nat × String × String))
    (lines : List String) (u : Nat) (token : String) (s : Scratch) :
    (handle_callback_scratch users lines u token s).orders_page = s.orders_page := by
  unfold handle_callback_scratch show_product_details_scratch
  cases get_user users u with
  | none => rfl
  | some v =>
    simp only
    repeat' split
    all_goals rfl

lemma run_callbacks_orders_page (users : List (Nat × String × String))
    (lines : List String) (u : Nat) (tokens : List String) :
    ∀ s : Scratch, (run_callbacks users lines u tokens s).orders_page = s.orders_page := by
  induction tokens with
  | nil => intro s; rfl
  | cons t ts ih =>
    intro s
    unfold run_callbacks at ih ⊢
    rw [List.foldl_cons, ih]
    exact handle_callback_scratch_orders_page users lines u t s

lemma show_user_orders_page_zero (ioFail : Bool) (ledger : List OrderRow)
    (fn ln : String) :
    ordersPageIdx (show_user_orders ioFail ledger none fn ln) = 0 := by
  unfold show_user_orders
  by_cases h : get_user_orders ioFail ledger (fn ++ " " ++ ln) = []
  · simp [h, ordersPageIdx]
  · simp [h, ordersPageIdx]

/-- C10: no dispatcher branch ever writes the pagination cursor
`orders_page` into the session scratch, so after any sequence of callback
tokens in a fresh session the cursor is still unset and the orders view
always renders with page index 0. -/
theorem C10_orders_page_never_written (tokens : List String)
    (users : List (Nat × String × String)) (lines : List String) (u : Nat)
    (ioFail : Bool) (ledger : List OrderRow) (fn ln : String) :
    (run_callbacks users lines u tokens ⟨none, none⟩).orders_page = none ∧
    ordersPageIdx (show_user_orders ioFail ledger
        (run_callbacks users lines u tokens ⟨none, none⟩).orders_page fn ln) = 0 := by
  have h := run_callbacks_orders_page users lines u tokens ⟨none, none⟩
  refine ⟨h, ?_⟩
  rw [h]
  exact show_user_orders_page_zero ioFail ledger fn ln

end BotZakazov
